import Mathlib

/-!
Shallow embedding of the TCP connection/server core of the utils repository
(src/lib/network). Pure state is modelled explicitly; every interaction with
the operating system (select readiness, recv/send results, socket creation,
bind, thread start, startup handshake) is supplied as an explicit environment
value consumed by the modelled code, so that each modelled function is a
deterministic computable function of its inputs. Loops that in the source run
until an OS event arrives are modelled as recursion over the finite list of
observed environment events; exhausting the list before the source loop would
have returned yields the value none (the call is still in progress).
-/

namespace UtilsNetwork

/-- Error codes of the library, as used by src/lib/network/TcpConnection.cpp
and src/lib/network/TcpServer.cpp (the Error enum header itself is referenced
by the sources as utils/network/Error.hpp; the constructors below are exactly
the enumerators those sources use). -/
inductive Error where
  | eOk
  | eNoMemory
  | eInvalidArgument
  | eConnectionNotActive
  | eTimeout
  | eClientDisconnected
  | eWriteError
  | eServerRunning
  | eSocketError
  | eBindError
  | eThreadError
  deriving DecidableEq

/-- Sentinel socket handle: TcpConnection.hpp line 146 and TcpServer.hpp
line 129, static constexpr int m_cUninitialized = -1. -/
def cUninitialized : Int := -1

/-- State of a TcpConnection (TcpConnection.hpp lines 145-152): the socket
descriptor m_socket and the optional parent-running flag m_cParentRunning.
The flag is a reference to a bool owned by the server; the model carries its
current value (none when no flag was supplied, the client-side case). -/
structure TcpConnection where
  socket : Int
  parentRunning : Option Bool
  deriving DecidableEq

namespace TcpConnection

/-- TcpConnection.hpp line 99: isActive() returns m_socket != m_cUninitialized. -/
def isActive (c : TcpConnection) : Bool :=
  c.socket ≠ cUninitialized

/-- TcpConnection.hpp line 95: isParentRunning() returns
m_cParentRunning && *m_cParentRunning (false when no flag was supplied). -/
def isParentRunning (c : TcpConnection) : Bool :=
  match c.parentRunning with
  | none => false
  | some b => b

/-- TcpConnection.cpp lines 197-203: close() releases the socket and sets it
to the sentinel when it is not already the sentinel; otherwise does nothing. -/
def close (c : TcpConnection) : TcpConnection :=
  if c.socket ≠ cUninitialized then { c with socket := cUninitialized } else c

/-- Result of the single underlying receive call made after a readiness
signal (TcpConnection.cpp line 122). The constructor bytes bs models the call
returning bs.length and depositing bs in the buffer; bs = [] models a return
value of 0 (the source checks bytesCount == 0 first, line 123). errAgain
models -1 with errno EAGAIN, errFatal models -1 with any other errno. -/
inductive RecvOutcome where
  | bytes (bs : List Nat)
  | errAgain
  | errFatal
  deriving DecidableEq

/-- One iteration of the readiness wait (TcpConnection.cpp lines 114-121):
select either reports no readiness within its 250 ms slice, or reports
readiness, after which exactly one receive call is made. -/
inductive SelectStep where
  | notReady
  | ready (r : RecvOutcome)
  deriving DecidableEq

/-- Outcome of TcpConnection::read on the raw-buffer overload: the connection
state after the call, the returned error code, the value left in the
actualReadSize out-parameter, and the bytes deposited in the buffer. -/
structure ReadResult where
  conn : TcpConnection
  err : Error
  actualReadSize : Nat
  data : List Nat
  deriving DecidableEq

/-- The while loop of TcpConnection::read (TcpConnection.cpp lines 108-145).
The timeout is modelled as the number of remaining 250 ms polling slices
(none = the infinite timeout); timeout.isExpired() at the loop head (line
109) is the check against some 0, and each iteration consumes one slice and
one environment event. A well-formed environment only uses bytes bs with
bs.length at most the requested size (a receive never returns more than
asked); theorems state that bound where they need it. Paths:
line 109 expired gives eTimeout; line 123 zero receive closes and gives
eClientDisconnected; line 128 errno EAGAIN continues; other errno breaks,
and the code after the loop (lines 144-145) closes and gives
eConnectionNotActive; a positive receive returns eOk at once with exactly
the bytes of that single receive (lines 138-140), with no accumulation
across receives. -/
def readLoop (c : TcpConnection) (size : Nat) (t : Option Nat) (env : List SelectStep) :
    Option ReadResult :=
  if ¬ c.isActive then some ⟨c.close, Error.eConnectionNotActive, 0, []⟩
  else if t = some 0 then some ⟨c, Error.eTimeout, 0, []⟩
  else
    match env with
    | [] => none
    | SelectStep.notReady :: rest => readLoop c size (t.map (· - 1)) rest
    | SelectStep.ready (RecvOutcome.bytes bs) :: _ =>
      if bs.length = 0 then some ⟨c.close, Error.eClientDisconnected, 0, []⟩
      else some ⟨c, Error.eOk, bs.length, bs⟩
    | SelectStep.ready RecvOutcome.errAgain :: rest => readLoop c size (t.map (· - 1)) rest
    | SelectStep.ready RecvOutcome.errFatal :: _ =>
      some ⟨c.close, Error.eConnectionNotActive, 0, []⟩

/-- TcpConnection::read, raw-buffer overload (TcpConnection.cpp lines
92-146). The model assumes a valid (non-null) buffer pointer, so the
eInvalidArgument branch of line 101 is not taken. On an inactive connection
the call closes defensively and fails (lines 95-99); otherwise
actualReadSize is set to 0 and the polling loop runs. -/
def read (c : TcpConnection) (size : Nat) (t : Option Nat) (env : List SelectStep) :
    Option ReadResult :=
  if ¬ c.isActive then some ⟨c.close, Error.eConnectionNotActive, 0, []⟩
  else readLoop c size t env

/-- Outcome of the vector overload of TcpConnection::read: connection state,
error code, and the vector contents after the call. -/
structure VectorReadResult where
  conn : TcpConnection
  err : Error
  vec : List Nat
  deriving DecidableEq

/-- TcpConnection::read, vector overload (TcpConnection.cpp lines 78-90).
The vector is resized to the requested size; resizedTo is the size the
resize actually achieved (the source checks bytes.size() != size, line 81,
and returns eNoMemory). On success of the resize the raw overload runs and
the vector is then resized down to actualReadSize (line 88), keeping the
received bytes. -/
def readVector (c : TcpConnection) (size resizedTo : Nat) (t : Option Nat)
    (env : List SelectStep) : Option VectorReadResult :=
  if resizedTo ≠ size then some ⟨c, Error.eNoMemory, List.replicate resizedTo 0⟩
  else
    match read c size t env with
    | none => none
    | some r => some ⟨r.conn, r.err, r.data.take r.actualReadSize⟩

/-- Result of one underlying send call (TcpConnection.cpp line 176): sent k
models the call returning k (k = 0 is checked first, line 177), errAgain
models -1 with errno EAGAIN, errFatal models -1 with any other errno. -/
inductive SendStep where
  | sent (k : Nat)
  | errAgain
  | errFatal
  deriving DecidableEq

/-- Outcome of TcpConnection::write: connection state, error code, and the
concatenation of the byte chunks actually accepted by the OS across the
underlying send calls (each call passes the whole buffer from its start, so
a call accepting k bytes transmits the first k bytes of the buffer). -/
structure WriteResult where
  conn : TcpConnection
  err : Error
  sentBytes : List Nat
  deriving DecidableEq

/-- Subtraction of std::size_t values (64-bit, wrapping), used for the
toWrite -= bytesCount update of TcpConnection.cpp line 191. -/
def usizeSub (a b : Nat) : Nat :=
  (a + 2 ^ 64 - b % 2 ^ 64) % 2 ^ 64

/-- The while loop of TcpConnection::write (TcpConnection.cpp lines
174-194). Every iteration issues write(m_socket, bytes, size): the buffer
pointer is never advanced and the full size is always requested, so a call
the OS answers with k transmits the first k bytes of b again (log grows by
b.take k). A zero return gives eWriteError (line 179); errno EAGAIN
continues; any other errno breaks out of the loop, after which the only
statement is return eOk (line 194) and close() is never called. -/
def writeLoop (c : TcpConnection) (b : List Nat) (toWrite : Nat) (env : List SendStep)
    (log : List Nat) : Option WriteResult :=
  if toWrite = 0 then some ⟨c, Error.eOk, log⟩
  else
    match env with
    | [] => none
    | SendStep.sent k :: rest =>
      if k = 0 then some ⟨c, Error.eWriteError, log⟩
      else writeLoop c b (usizeSub toWrite k) rest (log ++ b.take k)
    | SendStep.errAgain :: rest => writeLoop c b toWrite rest log
    | SendStep.errFatal :: _ => some ⟨c, Error.eOk, log⟩

/-- TcpConnection::write, raw-buffer overload (TcpConnection.cpp lines
158-195). The model assumes a valid (non-null) buffer pointer. An inactive
connection closes defensively and fails (lines 160-164); size 0 is an
immediate success (lines 171-172); otherwise the send loop runs with
toWrite = size. -/
def write (c : TcpConnection) (b : List Nat) (env : List SendStep) :
    Option WriteResult :=
  if ¬ c.isActive then some ⟨c.close, Error.eConnectionNotActive, []⟩
  else if b.length = 0 then some ⟨c, Error.eOk, []⟩
  else writeLoop c b b.length env []

end TcpConnection

/-- Endpoint value type (types.hpp lines 49-53): ip string, port as a C int,
optional reverse-DNS name. -/
structure Endpoint where
  ip : String
  port : Int
  name : Option String
  deriving DecidableEq

/-- The fields of a sockaddr_in relevant to endpoint construction: sin_port
is the 16-bit port field exactly as it sits in the structure, that is in
wire (network byte) order, and sin_addr the 32-bit address. -/
structure SockaddrIn where
  sin_port : Nat
  sin_addr : Nat
  deriving DecidableEq

/-- Byte swap of a 16-bit value: what the C function ntohs computes on a
little-endian host, converting the wire-format port field to host order. -/
def ntohs (x : Nat) : Nat :=
  x % 256 * 256 + x / 256 % 256

/-- sockaddrToEndpoint (types.cpp lines 49-70). The inet_ntoa rendering of
sin_addr and the getnameinfo outcome are supplied by the environment (ntoa,
nameinfo). Line 55 assigns endpoint.port = addr.sin_port directly, with no
byte-order conversion; the same direct assignment is made for both endpoints
built inside TcpServer::listenThread (TcpServer.cpp lines 193 and 212). -/
def sockaddrToEndpoint (addr : SockaddrIn) (ntoa : String) (nameinfo : Option String) :
    Endpoint :=
  { ip := ntoa, port := Int.ofNat addr.sin_port, name := nameinfo }

/-- State of a TcpServer relevant to start() (TcpServer.hpp lines 135-138):
the running flag, the configured port and the listening socket handle. -/
structure TcpServer where
  running : Bool
  port : Int
  socket : Int
  deriving DecidableEq

/-- OS and thread responses consumed by TcpServer::start: the return value
of socket() (-1 on failure), whether bind() succeeded, whether the listen
thread could be started, and whether the startup semaphore was signalled
within the one-second handshake timeout. -/
structure StartEnv where
  socketRet : Int
  bindOk : Bool
  threadStartOk : Bool
  startupSignalled : Bool
  deriving DecidableEq

/-- TcpServer::start(int port) (TcpServer.cpp lines 91-143). An already
running server is rejected (line 93); a port argument other than the
sentinel -1 overwrites the configured port (line 98); only a configured
port still equal to the sentinel is rejected as eInvalidArgument (line 101);
otherwise the listening socket is created, bound (failure closes the socket)
and the listen thread is started, with the handshake timeout giving
eTimeout. The listen() return value is ignored by the source. -/
def TcpServer.start (s : TcpServer) (p : Int) (env : StartEnv) : TcpServer × Error :=
  if s.running then (s, Error.eServerRunning)
  else
    let s1 := if p ≠ cUninitialized then { s with port := p } else s
    if s1.port = cUninitialized then (s1, Error.eInvalidArgument)
    else if env.socketRet = -1 then (s1, Error.eSocketError)
    else
      let s2 := { s1 with socket := env.socketRet }
      if ¬ env.bindOk then ({ s2 with socket := cUninitialized }, Error.eBindError)
      else if ¬ env.threadStartOk then ({ s2 with socket := cUninitialized }, Error.eThreadError)
      else if ¬ env.startupSignalled then (s2, Error.eTimeout)
      else ({ s2 with running := true }, Error.eOk)

/-- Admission-control state of a running TcpServer: sem is the current value
of m_connectionsSemaphore (initialized to maxConnections, TcpServer.cpp line
55), holding counts slots acquired by the listen thread for which the
connection thread has not yet been dispatched (TcpServer.cpp line 161 to
line 180), and active counts connection threads whose handler is running and
has not yet signalled the semaphore back (TcpServer.cpp lines 240-249). -/
structure AdmissionState where
  sem : Nat
  holding : Nat
  active : Nat
  deriving DecidableEq

/-- Events of the admission-control protocol of TcpServer::listenThread and
TcpServer::connectionThread. acquire: m_connectionsSemaphore.timedWait
succeeds (line 161), possible only when the count is positive.
acquireTimeout: timedWait times out after 250 ms and the loop continues
(lines 161-162), leaving the state unchanged. dispatch: an accepted
connection is handed to a fresh connection thread (lines 179-230), consuming
the held slot. finish: the handler returns and connectionThread signals the
semaphore exactly once (lines 245-248). The handler call is an ordinary
function call followed in sequence by the signal; a handler that never
returns simply never produces a finish event. -/
inductive AdmissionStep : AdmissionState → AdmissionState → Prop where
  | acquire (s : AdmissionState) :
      0 < s.sem → AdmissionStep s ⟨s.sem - 1, s.holding + 1, s.active⟩
  | acquireTimeout (s : AdmissionState) : AdmissionStep s s
  | dispatch (s : AdmissionState) :
      0 < s.holding → AdmissionStep s ⟨s.sem, s.holding - 1, s.active + 1⟩
  | finish (s : AdmissionState) :
      0 < s.active → AdmissionStep s ⟨s.sem + 1, s.holding, s.active - 1⟩

/-- Reachability of admission-control states from the initial state of a
server configured with maxConnections = N: semaphore at N, no held slot, no
active handler. -/
inductive ReachableAdmission (N : Nat) : AdmissionState → Prop where
  | init : ReachableAdmission N ⟨N, 0, 0⟩
  | step {s s' : AdmissionState} :
      ReachableAdmission N s → AdmissionStep s s' → ReachableAdmission N s'

open TcpConnection

/-- Unfolding lemma: an expired timeout at the loop head returns eTimeout at
once, whatever the environment holds. -/
theorem readLoop_expired (c : TcpConnection) (size : Nat) (env : List SelectStep)
    (hA : c.isActive = true) :
    readLoop c size (some 0) env = some ⟨c, Error.eTimeout, 0, []⟩ := by
  rw [readLoop.eq_def]
  simp [hA]

/-- Unfolding lemma: a select slice without readiness consumes one timeout
slice and loops. -/
theorem readLoop_notReady (c : TcpConnection) (size : Nat) (t : Option Nat)
    (rest : List SelectStep) (hA : c.isActive = true) (ht : t ≠ some 0) :
    readLoop c size t (SelectStep.notReady :: rest) = readLoop c size (t.map (· - 1)) rest := by
  rw [readLoop.eq_def]
  simp [hA, ht]

/-- Unfolding lemma: a receive failing with errno EAGAIN loops. -/
theorem readLoop_errAgain (c : TcpConnection) (size : Nat) (t : Option Nat)
    (rest : List SelectStep) (hA : c.isActive = true) (ht : t ≠ some 0) :
    readLoop c size t (SelectStep.ready RecvOutcome.errAgain :: rest)
      = readLoop c size (t.map (· - 1)) rest := by
  rw [readLoop.eq_def]
  simp [hA, ht]

/-- Unfolding lemma: a receive returning bytes either signals a disconnect
(zero bytes) or returns success immediately with exactly those bytes. -/
theorem readLoop_bytes (c : TcpConnection) (size : Nat) (t : Option Nat)
    (bs : List Nat) (rest : List SelectStep) (hA : c.isActive = true) (ht : t ≠ some 0) :
    readLoop c size t (SelectStep.ready (RecvOutcome.bytes bs) :: rest)
      = if bs.length = 0 then some ⟨c.close, Error.eClientDisconnected, 0, []⟩
        else some ⟨c, Error.eOk, bs.length, bs⟩ := by
  rw [readLoop.eq_def]
  simp [hA, ht]

/-- Unfolding lemma: a receive failing with a fatal errno closes the
connection and fails. -/
theorem readLoop_errFatal (c : TcpConnection) (size : Nat) (t : Option Nat)
    (rest : List SelectStep) (hA : c.isActive = true) (ht : t ≠ some 0) :
    readLoop c size t (SelectStep.ready RecvOutcome.errFatal :: rest)
      = some ⟨c.close, Error.eConnectionNotActive, 0, []⟩ := by
  rw [readLoop.eq_def]
  simp [hA, ht]

/-- Unfolding lemma: on an active connection, read delegates to the loop. -/
theorem read_active (c : TcpConnection) (size : Nat) (t : Option Nat)
    (env : List SelectStep) (hA : c.isActive = true) :
    read c size t env = readLoop c size t env := by
  rw [read.eq_def]
  simp [hA]

/-- Unfolding lemma: the loop on an inactive connection closes defensively
and fails. -/
theorem readLoop_inactive (c : TcpConnection) (size : Nat) (t : Option Nat)
    (env : List SelectStep) (hA : ¬ c.isActive = true) :
    readLoop c size t env = some ⟨c.close, Error.eConnectionNotActive, 0, []⟩ := by
  rw [readLoop.eq_def]
  simp [hA]

/-- Unfolding lemma: read on an inactive connection closes defensively and
fails. -/
theorem read_inactive (c : TcpConnection) (size : Nat) (t : Option Nat)
    (env : List SelectStep) (hA : ¬ c.isActive = true) :
    read c size t env = some ⟨c.close, Error.eConnectionNotActive, 0, []⟩ := by
  rw [read.eq_def]
  simp [hA]

/-- Invariant of the read loop: whenever it returns, the bytes deposited in
the buffer are exactly actualReadSize many. -/
theorem readLoop_data_length (c : TcpConnection) (size : Nat) :
    ∀ (env : List SelectStep) (t : Option Nat) (r : ReadResult),
      readLoop c size t env = some r → r.data.length = r.actualReadSize := by
  intro env
  induction env with
  | nil =>
    intro t r h
    by_cases hA : c.isActive = true
    · by_cases ht : t = some 0
      · subst ht
        rw [readLoop_expired c size [] hA] at h
        have hx := Option.some.inj h
        subst hx
        rfl
      · rw [readLoop.eq_def] at h
        simp [hA, ht] at h
    · rw [readLoop_inactive c size t [] hA] at h
      have hx := Option.some.inj h
      subst hx
      rfl
  | cons step rest ih =>
    intro t r h
    by_cases hA : c.isActive = true
    · by_cases ht : t = some 0
      · subst ht
        rw [readLoop_expired c size (step :: rest) hA] at h
        have hx := Option.some.inj h
        subst hx
        rfl
      · cases step with
        | notReady =>
          rw [readLoop_notReady c size t rest hA ht] at h
          exact ih _ _ h
        | ready r0 =>
          cases r0 with
          | bytes bs =>
            rw [readLoop_bytes c size t bs rest hA ht] at h
            by_cases hb : bs.length = 0
            · rw [if_pos hb] at h
              have hx := Option.some.inj h
              subst hx
              rfl
            · rw [if_neg hb] at h
              have hx := Option.some.inj h
              subst hx
              rfl
          | errAgain =>
            rw [readLoop_errAgain c size t rest hA ht] at h
            exact ih _ _ h
          | errFatal =>
            rw [readLoop_errFatal c size t rest hA ht] at h
            have hx := Option.some.inj h
            subst hx
            rfl
    · rw [readLoop_inactive c size t (step :: rest) hA] at h
      have hx := Option.some.inj h
      subst hx
      rfl

/-- Invariant of read: whenever it returns, the bytes deposited in the
buffer are exactly actualReadSize many. -/
theorem read_data_length (c : TcpConnection) (size : Nat) (t : Option Nat)
    (env : List SelectStep) (r : ReadResult) (h : read c size t env = some r) :
    r.data.length = r.actualReadSize := by
  by_cases hA : c.isActive = true
  · rw [read_active c size t env hA] at h
    exact readLoop_data_length c size env t r h
  · rw [read_inactive c size t env hA] at h
    have hx := Option.some.inj h
    subst hx
    rfl

/-- Closing a connection always leaves it inactive: the socket field becomes
the sentinel on both branches of close. -/
theorem close_isActive_false (c : TcpConnection) : c.close.isActive = false := by
  by_cases hc : c.socket = cUninitialized
  · simp [TcpConnection.close, TcpConnection.isActive, hc]
  · simp [TcpConnection.close, TcpConnection.isActive, hc]

/-- An admission-control step preserves the total count of semaphore value,
held slots and active handlers. -/
theorem admissionStep_sum {s s' : AdmissionState} (hstep : AdmissionStep s s') :
    s'.sem + s'.holding + s'.active = s.sem + s.holding + s.active := by
  cases hstep with
  | acquire hp =>
    show s.sem - 1 + (s.holding + 1) + s.active = s.sem + s.holding + s.active
    omega
  | acquireTimeout => rfl
  | dispatch hp =>
    show s.sem + (s.holding - 1) + (s.active + 1) = s.sem + s.holding + s.active
    omega
  | finish hp =>
    show s.sem + 1 + s.holding + (s.active - 1) = s.sem + s.holding + s.active
    omega

/-- Every reachable admission-control state keeps the total of semaphore
value, held slots and active handlers equal to maxConnections. -/
theorem admission_slot_sum (N : Nat) :
    ∀ s : AdmissionState, ReachableAdmission N s → s.sem + s.holding + s.active = N := by
  intro s h
  induction h with
  | init => rfl
  | step a b ih => rw [admissionStep_sum b, ih]

/-- C1, counterexample: the claim that read(n, infiniteTimeout) loops until
the full n bytes are received and returns exactly those n bytes is false. On
an active connection asked for 2 bytes, with the peer sending the 2 bytes in
two fragments of one byte each, the call returns success after the first
receive with actualReadSize 1 and only the first byte, not the 2 bytes the
claim demands. -/
theorem read_exact_size_counterexample :
    read ⟨5, none⟩ 2 none
        [SelectStep.ready (RecvOutcome.bytes [7]), SelectStep.ready (RecvOutcome.bytes [8])]
      = some ⟨⟨5, none⟩, Error.eOk, 1, [7]⟩ ∧ (1 : Nat) ≠ 2 ∧ ([7] : List Nat) ≠ [7, 8] := by
  decide

/-- C1, amended: read(n, infiniteTimeout) on an active connection loops only
across readiness waits and EAGAIN retries; at the first successful
underlying receive it returns success immediately with exactly the bytes of
that single receive, between 1 and n of them, and does not accumulate
across receives. -/
theorem read_first_recv_returns (c : TcpConnection) (n : Nat) (pre : List SelectStep)
    (bs : List Nat) (rest : List SelectStep)
    (hA : c.isActive = true)
    (hpre : ∀ e ∈ pre, e = SelectStep.notReady ∨ e = SelectStep.ready RecvOutcome.errAgain)
    (hbs : bs ≠ []) (hn : bs.length ≤ n) :
    read c n none (pre ++ SelectStep.ready (RecvOutcome.bytes bs) :: rest)
      = some ⟨c, Error.eOk, bs.length, bs⟩ ∧ 0 < bs.length ∧ bs.length ≤ n := by
  have key : ∀ pre2 : List SelectStep,
      (∀ e ∈ pre2, e = SelectStep.notReady ∨ e = SelectStep.ready RecvOutcome.errAgain) →
      readLoop c n none (pre2 ++ SelectStep.ready (RecvOutcome.bytes bs) :: rest)
        = some ⟨c, Error.eOk, bs.length, bs⟩ := by
    intro pre2
    induction pre2 with
    | nil =>
      intro _
      rw [List.nil_append, readLoop_bytes c n none bs rest hA (by simp)]
      rw [if_neg (by simpa using hbs)]
    | cons e tl ih =>
      intro hp
      have he := hp e (List.mem_cons_self e tl)
      have htl : ∀ x ∈ tl, x = SelectStep.notReady ∨ x = SelectStep.ready RecvOutcome.errAgain :=
        fun x hx => hp x (List.mem_cons_of_mem e hx)
      rcases he with h1 | h1 <;> subst h1
      · rw [List.cons_append, readLoop_notReady c n none _ hA (by simp)]
        simpa using ih htl
      · rw [List.cons_append, readLoop_errAgain c n none _ hA (by simp)]
        simpa using ih htl
  refine ⟨?_, List.length_pos.mpr hbs, hn⟩
  rw [read_active c n none _ hA]
  exact key pre hpre

/-- C1, witness: the amended theorem applied to an active connection asked
for 2 bytes whose environment is one empty select slice, one EAGAIN retry
and then a successful one-byte receive. -/
theorem read_first_recv_returns_witness :
    read ⟨5, none⟩ 2 none
        [SelectStep.notReady, SelectStep.ready RecvOutcome.errAgain,
         SelectStep.ready (RecvOutcome.bytes [7])]
      = some ⟨⟨5, none⟩, Error.eOk, ([7] : List Nat).length, [7]⟩ ∧
    0 < ([7] : List Nat).length ∧ ([7] : List Nat).length ≤ 2 :=
  read_first_recv_returns ⟨5, none⟩ 2
    [SelectStep.notReady, SelectStep.ready RecvOutcome.errAgain] [7] []
    (by decide) (by decide) (by decide) (by decide)

/-- C2: the claim that write advances past the bytes already sent and
transfers exactly the bytes of b once each in order is false on the code.
Writing b = [1, 2] on an active connection where the OS accepts one byte per
send call makes the code pass the whole buffer from its start again on the
second call, so the peer receives [1, 1] instead of [1, 2], and write still
returns success. This contradicts the echo round-trip expectation of the
repository test suite, so the code, not the claim, is wrong. -/
theorem write_resends_from_start_at_failing_input :
    write ⟨5, none⟩ [1, 2] [SendStep.sent 1, SendStep.sent 1]
      = some ⟨⟨5, none⟩, Error.eOk, [1, 1]⟩ ∧ ([1, 1] : List Nat) ≠ [1, 2] := by
  decide

/-- C3: the claim that a fatal send error closes the connection and returns
a failure is false on the code. On an active connection, writing [1, 2] with
the first send failing with a fatal (non EAGAIN) errno makes the loop break,
after which the only statement is return eOk: the call returns success and
the socket is left untouched (the connection is still active), despite the
source logging that it closes the connection on error. The code contradicts
its own log message and the read path, which does close; the code, not the
claim, is wrong. -/
theorem write_fatal_error_returns_ok_at_failing_input :
    write ⟨5, none⟩ [1, 2] [SendStep.errFatal]
      = some ⟨⟨5, none⟩, Error.eOk, []⟩ ∧
    Error.eOk ≠ Error.eConnectionNotActive ∧
    TcpConnection.isActive ⟨5, none⟩ = true := by
  decide

/-- C4, counterexample: the claim that isActive is true exactly when the
socket differs from the sentinel AND the parent-running flag is absent or
true is false. A connection with a valid socket whose parent flag is present
and false still reports isActive = true. -/
theorem isActive_parent_flag_counterexample :
    TcpConnection.isActive ⟨5, some false⟩ = true ∧
    ¬ ((TcpConnection.socket ⟨5, some false⟩ ≠ cUninitialized) ∧
       (TcpConnection.parentRunning ⟨5, some false⟩ = none ∨
        TcpConnection.parentRunning ⟨5, some false⟩ = some true)) := by
  decide

/-- C4, amended: isActive is true exactly when the socket handle differs
from the sentinel; the parent-running flag does not enter into it (it is
reported separately by isParentRunning). -/
theorem isActive_iff_socket_valid (c : TcpConnection) :
    c.isActive = true ↔ c.socket ≠ cUninitialized := by
  simp [TcpConnection.isActive]

/-- C5: for a server configured with maxConnections = N, in every reachable
admission-control state at most N connection-handler units are concurrently
executing. A slot is acquired from the counting semaphore before every
accept (the dispatch event consumes a previously acquired slot) and is
released exactly once by the finish event after the handler completes, so
the total of free slots, held slots and active handlers stays N, which
bounds the active handlers by N. -/
theorem admission_bound (N : Nat) (s : AdmissionState) (h : ReachableAdmission N s) :
    s.active ≤ N ∧ s.sem + s.holding + s.active = N := by
  have hs := admission_slot_sum N s h
  exact ⟨by omega, hs⟩

/-- C5, witness: the bound applied to a concrete reachable state of a
server with maxConnections = 1 after one acquire and one dispatch. -/
theorem admission_bound_witness :
    (⟨0, 0, 1⟩ : AdmissionState).active ≤ 1 ∧
    (⟨0, 0, 1⟩ : AdmissionState).sem + (⟨0, 0, 1⟩ : AdmissionState).holding +
      (⟨0, 0, 1⟩ : AdmissionState).active = 1 :=
  admission_bound 1 ⟨0, 0, 1⟩
    (ReachableAdmission.step
      (ReachableAdmission.step ReachableAdmission.init (AdmissionStep.acquire ⟨1, 0, 0⟩ (by decide)))
      (AdmissionStep.dispatch ⟨0, 1, 0⟩ (by decide)))

/-- C6: read(n, t) on an active connection in whose remaining t polling
slices no read-readiness occurs returns eTimeout, and the connection stays
open: the returned connection state is the unchanged input state and
isActive still holds. -/
theorem read_timeout_keeps_connection (c : TcpConnection) (size t0 : Nat)
    (env : List SelectStep) (hA : c.isActive = true) (hlen : t0 ≤ env.length)
    (hnr : ∀ e ∈ env.take t0, e = SelectStep.notReady) :
    read c size (some t0) env = some ⟨c, Error.eTimeout, 0, []⟩ ∧ c.isActive = true := by
  have key : ∀ (k : Nat) (l : List SelectStep), k ≤ l.length →
      (∀ e ∈ l.take k, e = SelectStep.notReady) →
      readLoop c size (some k) l = some ⟨c, Error.eTimeout, 0, []⟩ := by
    intro k
    induction k with
    | zero => intro l _ _; exact readLoop_expired c size l hA
    | succ m ih =>
      intro l hl hr
      cases l with
      | nil => simp at hl
      | cons e rest =>
        have he : e = SelectStep.notReady := hr e (by simp)
        subst he
        rw [readLoop_notReady c size (some (m + 1)) rest hA (by simp)]
        have hmap : Option.map (fun x => x - 1) (some (m + 1)) = some m := by simp
        rw [hmap]
        exact ih rest (by simpa using hl) (fun x hx => hr x (by simp [hx]))
  refine ⟨?_, hA⟩
  rw [read_active c size (some t0) env hA]
  exact key t0 env hlen hnr

/-- C6, witness: the timeout theorem applied to an active connection with a
two-slice timeout and two select slices without readiness. -/
theorem read_timeout_keeps_connection_witness :
    read ⟨5, none⟩ 3 (some 2) [SelectStep.notReady, SelectStep.notReady]
      = some ⟨⟨5, none⟩, Error.eTimeout, 0, []⟩ ∧
    TcpConnection.isActive ⟨5, none⟩ = true :=
  read_timeout_keeps_connection ⟨5, none⟩ 3 2 [SelectStep.notReady, SelectStep.notReady]
    (by decide) (by decide) (by decide)

/-- C7, counterexample: the claim that read with targetSize 0 returns
immediately with success and zero bytes, without waiting for readiness and
without closing the connection, is false. On an active connection with a
zero-size request, the code enters the normal wait loop; when the socket
becomes ready the zero-size underlying receive returns 0 bytes, which the
code treats as a peer disconnect: the connection is closed and
eClientDisconnected, not success, is returned. -/
theorem read_zero_size_counterexample :
    read ⟨5, none⟩ 0 none [SelectStep.ready (RecvOutcome.bytes [])]
      = some ⟨⟨-1, none⟩, Error.eClientDisconnected, 0, []⟩ ∧
    Error.eClientDisconnected ≠ Error.eOk ∧
    TcpConnection.isActive ⟨-1, none⟩ = false := by
  decide

/-- C7, amended: read with targetSize 0 is not special-cased: it waits for
readiness like any other read, and on the first readiness signal the
zero-size underlying receive yields zero bytes, which the code interprets as
a graceful peer disconnect, closing the connection and returning
eClientDisconnected; with no readiness it runs into the ordinary timeout
path instead of returning at once. -/
theorem read_zero_size_disconnects_on_ready (c : TcpConnection) (t : Option Nat)
    (rest : List SelectStep) (hA : c.isActive = true) (ht : t ≠ some 0) :
    read c 0 t (SelectStep.ready (RecvOutcome.bytes []) :: rest)
      = some ⟨c.close, Error.eClientDisconnected, 0, []⟩ ∧ c.close.isActive = false := by
  constructor
  · rw [read_active c 0 t _ hA, readLoop_bytes c 0 t [] rest hA ht]
    simp
  · exact close_isActive_false c

/-- C7, witness: the amended theorem applied to an active connection with an
infinite timeout and an immediately ready socket. -/
theorem read_zero_size_disconnects_on_ready_witness :
    read ⟨5, none⟩ 0 none [SelectStep.ready (RecvOutcome.bytes [])]
      = some ⟨TcpConnection.close ⟨5, none⟩, Error.eClientDisconnected, 0, []⟩ ∧
    (TcpConnection.close ⟨5, none⟩).isActive = false :=
  read_zero_size_disconnects_on_ready ⟨5, none⟩ none [] (by decide) (by decide)

/-- C8: the claim that start with a negative port returns eInvalidArgument
without creating any socket is false on the code, which only rejects the
sentinel value -1. On a stopped server with no configured port, start with
port -50000 stores the port, creates the listening socket and can return
eOk with the socket handle set. The repository test suite requires
eInvalidArgument for port -50000, so the code, not the claim, is wrong. -/
theorem start_negative_port_not_rejected :
    TcpServer.start ⟨false, -1, -1⟩ (-50000) ⟨3, true, true, true⟩
      = (⟨true, -50000, 3⟩, Error.eOk) ∧
    Error.eOk ≠ Error.eInvalidArgument ∧
    TcpServer.socket ⟨true, -50000, 3⟩ ≠ cUninitialized := by
  decide

/-- C9, counterexample: the claim that an Endpoint carries its port in host
byte order, equal to the ntohs byte swap of the wire-format field, is false.
For a sockaddr whose 16-bit port field holds 36895 (the wire encoding of
port 8080), sockaddrToEndpoint stores 36895 while the claim demands
ntohs 36895 = 8080. -/
theorem endpoint_port_byte_order_counterexample :
    (sockaddrToEndpoint ⟨36895, 0⟩ "" none).port = 36895 ∧
    ntohs 36895 = 8080 ∧ (36895 : Int) ≠ 8080 := by
  decide

/-- C9, amended: the Endpoint produced by endpoint resolution carries the
wire-format (network byte order) value of the port field of the address
structure verbatim, with no byte-order conversion. -/
theorem endpoint_port_is_raw_sin_port (addr : SockaddrIn) (ntoa : String)
    (nameinfo : Option String) :
    (sockaddrToEndpoint addr ntoa nameinfo).port = Int.ofNat addr.sin_port := rfl

/-- C10: for the vector-based read, whenever the initial resize reaches the
requested size and the call returns, the vector length equals the
actualReadSize of the underlying raw read for every outcome, and whenever
the resize cannot reach the requested size the call returns eNoMemory with
the connection untouched and nothing received, whatever the environment
holds. -/
theorem readVector_size_matches_actual (c : TcpConnection) (size rt : Nat)
    (t : Option Nat) (env : List SelectStep) :
    (∀ out : VectorReadResult, readVector c size size t env = some out →
        ∃ r : ReadResult, read c size t env = some r ∧
          out.err = r.err ∧ out.vec.length = r.actualReadSize) ∧
    (rt ≠ size →
        readVector c size rt t env = some ⟨c, Error.eNoMemory, List.replicate rt 0⟩) := by
  constructor
  · intro out hout
    rw [readVector.eq_def] at hout
    rw [if_neg (by simp)] at hout
    cases hread : read c size t env with
    | none =>
      rw [hread] at hout
      exact Option.noConfusion hout
    | some r =>
      rw [hread] at hout
      have hx := Option.some.inj hout
      subst hx
      refine ⟨r, rfl, rfl, ?_⟩
      have hd := read_data_length c size t env r hread
      simp [List.length_take, hd]
  · intro hne
    rw [readVector.eq_def]
    rw [if_pos hne]

/-- C10, witness: the theorem applied to an active connection reading 2
bytes that arrive in one receive (resize succeeding), and to a resize that
only reaches 1 of the 2 requested bytes (eNoMemory). -/
theorem readVector_size_matches_actual_witness :
    (∃ r : ReadResult,
        read ⟨5, none⟩ 2 none [SelectStep.ready (RecvOutcome.bytes [9, 9])] = some r ∧
        Error.eOk = r.err ∧ (2 : Nat) = r.actualReadSize) ∧
    readVector ⟨5, none⟩ 2 1 none [SelectStep.ready (RecvOutcome.bytes [9, 9])]
      = some ⟨⟨5, none⟩, Error.eNoMemory, List.replicate 1 0⟩ :=
  ⟨(readVector_size_matches_actual ⟨5, none⟩ 2 1 none
        [SelectStep.ready (RecvOutcome.bytes [9, 9])]).1
      ⟨⟨5, none⟩, Error.eOk, [9, 9]⟩ (by decide),
   (readVector_size_matches_actual ⟨5, none⟩ 2 1 none
        [SelectStep.ready (RecvOutcome.bytes [9, 9])]).2 (by decide)⟩

end UtilsNetwork
